import Mathlib

/-!
Verification of the background visual-effects subsystem of the New2Canada
repository (`src/static/background-effects.js`).

The JavaScript source is shallowly embedded: JS numbers are modelled as
exact rationals (`ℚ`) where the source performs only field arithmetic, with
an explicit `JSNum` type carrying `NaN`/infinities where division by zero
matters, and as real numbers (`ℝ`) where the source uses the transcendental
functions `Math.exp`, `Math.cos`, `Math.sin`, `Math.log2`.  Fallible steps
(`JSON.parse`, `removeChild`) are modelled with `Option`/`Except`; the
`try`/`catch` wrappers of the source become explicit `match`es on those.
-/

namespace BgFx

/-- A JavaScript value as produced by the configuration resolver
(`parseData`): a finite number, the special value `NaN`, a string, a
boolean, an array, or `null`.  Object values are not modelled: no
repository attribute and no claim involves a JSON object literal. -/
inductive JSVal where
  | num (q : ℚ)
  | nan
  | str (s : String)
  | bool (b : Bool)
  | arr (elems : List JSVal)
  | null

/-- JS `String.prototype.includes`: substring containment, on `List Char`. -/
def listIncludes (hay sub : List Char) : Bool :=
  match hay with
  | [] => sub.isEmpty
  | _ :: t => sub.isPrefixOf hay || listIncludes t sub

/-- JS `key.includes(sub)` on `String`. -/
def strIncludes (key sub : String) : Bool :=
  listIncludes key.data sub.data

/-- JS `s.startsWith(p)`. -/
def strStartsWith (s p : String) : Bool :=
  p.data.isPrefixOf s.data

/-- JS `s.slice(n)`: drop the first `n` characters. -/
def strDropChars (s : String) (n : ℕ) : String :=
  ⟨s.data.drop n⟩

/-- Character is a JS whitespace character (the forms that occur in
attribute strings). -/
def isWsChar (c : Char) : Bool :=
  c = ' ' || c = '\t' || c = '\n' || c = '\r'

/-- Span of leading decimal digits. -/
def takeDigits (cs : List Char) : List Char × List Char :=
  match cs with
  | [] => ([], [])
  | c :: t =>
    if c.isDigit then
      let (ds, rest) := takeDigits t
      (c :: ds, rest)
    else ([], cs)

/-- Value of a digit list read in base 10. -/
def digitsToNat (ds : List Char) : ℕ :=
  ds.foldl (fun acc c => 10 * acc + (c.toNat - '0'.toNat)) 0

/-- Exponent part of a JS float literal: `e`/`E`, optional sign, digits.
If the part is malformed it is not consumed (as `parseFloat` does:
`parseFloat "1e"` is `1`). -/
def parseExpPart (cs : List Char) : ℤ :=
  match cs with
  | 'e' :: t | 'E' :: t =>
    let (sgn, t1) : ℤ × List Char :=
      match t with
      | '+' :: u => (1, u)
      | '-' :: u => (-1, u)
      | _ => (1, t)
    let (ds, _) := takeDigits t1
    if ds.isEmpty then 0 else sgn * (digitsToNat ds : ℤ)
  | _ => 0

/-- JS `parseFloat`: skip leading whitespace, read an optional sign, an
integer part, an optional fraction, and an optional exponent; the longest
numeric prefix is converted and the rest of the string is ignored.  When
no digit is consumed the result is `NaN`.  (The `Infinity` literal is not
modelled: no repository input or claim involves it.) -/
def parseFloat (s : String) : JSVal :=
  let cs := s.data.dropWhile isWsChar
  let (sgn, cs1) : ℚ × List Char :=
    match cs with
    | '+' :: t => (1, t)
    | '-' :: t => (-1, t)
    | _ => (1, cs)
  let (intDs, cs2) := takeDigits cs1
  let (fracDs, cs3) :=
    match cs2 with
    | '.' :: t => takeDigits t
    | _ => ([], cs2)
  if intDs.isEmpty && fracDs.isEmpty then JSVal.nan
  else
    let e := parseExpPart cs3
    let mant : ℚ := (digitsToNat intDs : ℚ) + (digitsToNat fracDs : ℚ) / 10 ^ fracDs.length
    JSVal.num (sgn * mant * (10 : ℚ) ^ e)

/-- Strict JSON fraction-and-exponent suffix of a number, returning the
scaled value.  Helper for `jsonNumber`. -/
def jsonNumberTail (intVal : ℚ) (cs : List Char) : Option (ℚ × List Char) :=
  let fracStep : Option (ℚ × List Char) :=
    match cs with
    | '.' :: t =>
      let (ds, rest) := takeDigits t
      if ds.isEmpty then none
      else some (intVal + (digitsToNat ds : ℚ) / 10 ^ ds.length, rest)
    | _ => some (intVal, cs)
  match fracStep with
  | none => none
  | some (v, cs1) =>
    match cs1 with
    | 'e' :: t | 'E' :: t =>
      let (sgn, t1) : ℤ × List Char :=
        match t with
        | '+' :: u => (1, u)
        | '-' :: u => (-1, u)
        | _ => (1, t)
      let (ds, rest) := takeDigits t1
      if ds.isEmpty then none
      else some (v * (10 : ℚ) ^ (sgn * (digitsToNat ds : ℤ)), rest)
    | _ => some (v, cs1)

/-- JSON number: optional minus, digits, optional fraction, optional
exponent. -/
def jsonNumber (cs : List Char) : Option (ℚ × List Char) :=
  let (neg, cs1) : Bool × List Char :=
    match cs with
    | '-' :: t => (true, t)
    | _ => (false, cs)
  let (intDs, cs2) := takeDigits cs1
  if intDs.isEmpty then none
  else
    match jsonNumberTail (digitsToNat intDs : ℚ) cs2 with
    | none => none
    | some (v, rest) => some (if neg then -v else v, rest)

/-- JSON string body after the opening quote: characters up to the closing
quote.  Escape sequences are not modelled (no repository attribute uses
them). -/
def jsonStringBody (cs : List Char) : Option (String × List Char) :=
  let body := cs.takeWhile (fun c => c ≠ '"')
  match cs.dropWhile (fun c => c ≠ '"') with
  | '"' :: rest => some (⟨body⟩, rest)
  | _ => none

/-- Skip JSON whitespace. -/
def jsonWs (cs : List Char) : List Char := cs.dropWhile isWsChar

mutual

/-- One JSON value (number, string, `true`/`false`/`null`, or array),
fuel-bounded recursion on the remaining input.  Object values are not
modelled (see `JSVal`). -/
def jsonValue : ℕ → List Char → Option (JSVal × List Char)
  | 0, _ => none
  | fuel + 1, cs =>
    match cs with
    | 't' :: 'r' :: 'u' :: 'e' :: rest => some (JSVal.bool true, rest)
    | 'f' :: 'a' :: 'l' :: 's' :: 'e' :: rest => some (JSVal.bool false, rest)
    | 'n' :: 'u' :: 'l' :: 'l' :: rest => some (JSVal.null, rest)
    | '"' :: rest =>
      match jsonStringBody rest with
      | some (s, rest1) => some (JSVal.str s, rest1)
      | none => none
    | '[' :: rest =>
      match jsonWs rest with
      | ']' :: rest1 => some (JSVal.arr [], rest1)
      | rest1 =>
        match jsonElems fuel rest1 with
        | some (elems, rest2) => some (JSVal.arr elems, rest2)
        | none => none
    | _ =>
      match jsonNumber cs with
      | some (q, rest) => some (JSVal.num q, rest)
      | none => none

/-- Comma-separated JSON array elements followed by the closing bracket. -/
def jsonElems : ℕ → List Char → Option (List JSVal × List Char)
  | 0, _ => none
  | fuel + 1, cs =>
    match jsonValue fuel cs with
    | none => none
    | some (v, rest) =>
      match jsonWs rest with
      | ',' :: rest1 =>
        match jsonElems fuel (jsonWs rest1) with
        | some (vs, rest2) => some (v :: vs, rest2)
        | none => none
      | ']' :: rest1 => some ([v], rest1)
      | _ => none

end

/-- JS `JSON.parse` on the JSON subset used by this repository (numbers,
strings, booleans, `null`, arrays): `none` models a thrown `SyntaxError`. -/
def jsonParse (s : String) : Option JSVal :=
  match jsonValue (s.length + 1) (jsonWs s.data) with
  | some (v, rest) => if (jsonWs rest).isEmpty then some v else none
  | none => none

/-- A DOM element, reduced to its attribute map. -/
structure Element where
  attrs : List (String × String)

/-- DOM `getAttribute`: `none` models JS `null` for an absent attribute. -/
def getAttribute (e : Element) (key : String) : Option String :=
  (e.attrs.find? (fun p => p.1 == key)).map (fun p => p.2)

/-- `parseData`'s numeric-key heuristic (first branch of the `try`). -/
def isNumericKey (key : String) : Bool :=
  strIncludes key "speed" || strIncludes key "amplitude" ||
  strIncludes key "length" || strIncludes key "road-width" ||
  strIncludes key "width" || strIncludes key "lines" || strIncludes key "fov"

/-- `parseData`'s color/structured-key heuristic (second branch). -/
def isColorKey (key : String) : Bool :=
  strIncludes key "color" || strIncludes key "cars" ||
  strIncludes key "lines" || strIncludes key "sticks"

/-- `parseData`'s boolean-key heuristic (third branch). -/
def isMouseKey (key : String) : Bool :=
  strIncludes key "mouse-react"

/-- The `try` block of `parseData`: `Except.error ()` models an exception
reaching the `catch`.  `parseFloat` never throws (it yields `NaN`), the
boolean branch never throws, and the structured branches throw exactly
when `JSON.parse` does. -/
def parseDataTry (key value : String) : Except Unit JSVal :=
  if isNumericKey key then Except.ok (parseFloat value)
  else if isColorKey key then
    if strStartsWith value "[" || strStartsWith value "\x7b" then
      match jsonParse value with
      | some v => Except.ok v
      | none => Except.error ()
    else Except.ok (JSVal.str value)
  else if isMouseKey key then Except.ok (JSVal.bool (value.toLower == "true"))
  else
    match jsonParse value with
    | some v => Except.ok v
    | none => Except.error ()

/-- `parseData(element, key, defaultValue)`: absent attribute yields the
default; otherwise the `try` block runs and, on an exception, the `catch`
returns `value || defaultValue` — the raw string when non-empty (the only
falsy string is `""`), else the default. -/
def parseData (e : Element) (key : String) (defaultValue : JSVal) : JSVal :=
  match getAttribute e key with
  | none => defaultValue
  | some value =>
    match parseDataTry key value with
    | Except.ok v => v
    | Except.error _ => if value = "" then defaultValue else JSVal.str value

/-! ### Color resolution (`hexToColor`, THREE.Color) -/

/-- An internal THREE.Color value: three components, each `0..1` for the
`0..255` channel range. -/
structure ThreeColor where
  r : ℚ
  g : ℚ
  b : ℚ
  deriving DecidableEq, Repr

/-- Hexadecimal digit test, as accepted by JS `parseInt(·, 16)`. -/
def isHexDigit (c : Char) : Bool :=
  c.isDigit || ('a' ≤ c && c ≤ 'f') || ('A' ≤ c && c ≤ 'F')

/-- Value of one hexadecimal digit. -/
def hexDigitVal (c : Char) : ℕ :=
  if c.isDigit then c.toNat - '0'.toNat
  else if 'a' ≤ c && c ≤ 'f' then c.toNat - 'a'.toNat + 10
  else c.toNat - 'A'.toNat + 10

/-- JS `parseInt(s, 16)` on the hex-digit prefix of `s`.  Every color
string in this repository consists solely of hex digits after its prefix,
so the `NaN` case (no digit at all) is not modelled. -/
def parseIntHex (s : String) : ℕ :=
  (s.data.takeWhile isHexDigit).foldl (fun acc c => 16 * acc + hexDigitVal c) 0

/-- `THREE.Color.setHex`: channels are the three bytes of the hex number,
`r = (hex >> 16 & 255) / 255`, `g = (hex >> 8 & 255) / 255`,
`b = (hex & 255) / 255`. -/
def colorOfHexNum (h : ℕ) : ThreeColor :=
  ⟨((h / 65536 % 256 : ℕ) : ℚ) / 255, ((h / 256 % 256 : ℕ) : ℚ) / 255,
   ((h % 256 : ℕ) : ℚ) / 255⟩

/-- Argument to `hexToColor`: a string or an already-numeric hex value. -/
inductive HexInput where
  | str (s : String)
  | num (n : ℕ)

/-- `hexToColor(hex)`: a `0x`- or `#`-prefixed string is converted with
`parseInt(·, 16)` and handed to `new THREE.Color(number)`.  The CSS
color-name path of `THREE.Color` for unprefixed strings is not modelled:
every color this repository passes is in `0x`/`#` form. -/
def hexToColor : HexInput → ThreeColor
  | HexInput.str s =>
    if strStartsWith s "0x" then colorOfHexNum (parseIntHex (strDropChars s 2))
    else if strStartsWith s "#" then colorOfHexNum (parseIntHex (strDropChars s 1))
    else colorOfHexNum 0
  | HexInput.num n => colorOfHexNum n

/-- `new THREE.Color(r, g, b)`: a component triplet is taken verbatim. -/
def colorOfTriple (r g b : ℚ) : ThreeColor := ⟨r, g, b⟩

/-! ### JS division with NaN (zero-size resize paths) -/

/-- A JS number that may be `NaN` or infinite.  Only finite operands occur
in the embedded code paths, so division is the one operation modelled on
the special values. -/
inductive JSNum where
  | num (q : ℚ)
  | nan
  | posInf
  | negInf
  deriving DecidableEq, Repr

/-- JS `/` on numbers: `0 / 0` is `NaN`, `±x / 0` is `±Infinity` for
`x ≠ 0` (negative zero is not modelled; the embedded code never produces
it), otherwise exact division.  Nonfinite operands do not occur in any
embedded path and are collapsed to `NaN`. -/
def jsDiv : JSNum → JSNum → JSNum
  | JSNum.num a, JSNum.num b =>
    if b = 0 then
      if a = 0 then JSNum.nan else if 0 < a then JSNum.posInf else JSNum.negInf
    else JSNum.num (a / b)
  | _, _ => JSNum.nan

/-! ### Easing (`lerp`, Hyperspeed `update`) -/

/-- `lerp(current, target, speed, limit)`: the proposed change is
`(target - current) * speed`, but when its magnitude falls below `limit`
the remaining gap is taken whole, so the value lands exactly on the
target.  (Source defaults: `speed = 0.1`, `limit = 0.001`; callers pass
`speed` explicitly and `HyperspeedApp.update` passes `limit = 0.00001`
for the speed-up easing.) -/
noncomputable def lerp (current target speed limit : ℝ) : ℝ :=
  let change := (target - current) * speed
  if |change| < limit then target - current else change

/-- The constant `-(-60 * Math.log2(1 - 0.1))` from `HyperspeedApp.update`
(`Math.log2` is `Real.logb 2`); it is negative, making the per-frame
percentage below a decaying exponential. -/
noncomputable def lerpDecay : ℝ := -(-60 * Real.logb 2 (1 - 0.1))

/-- `lerpPercentage = Math.exp(-(-60 * Math.log2(1 - 0.1)) * delta)`. -/
noncomputable def lerpPercentage (delta : ℝ) : ℝ := Real.exp (lerpDecay * delta)

/-- One frame of the speed-up easing:
`this.speedUp += lerp(this.speedUp, this.speedUpTarget, lerpPercentage, 0.00001)`. -/
noncomputable def speedUpStep (target current delta : ℝ) : ℝ :=
  current + lerp current target (lerpPercentage delta) 0.00001

/-- The per-frame `speedUp` values over a sequence of frame deltas,
starting from `speedUp = 0` (the constructor value), with the press-held
target fixed: the state before each frame and after the last. -/
noncomputable def speedUpTraj (target : ℝ) (deltas : List ℝ) : List ℝ :=
  deltas.scanl (fun su delta => speedUpStep target su delta) 0

/-- The `speedUp` value after running all frames of `deltas` from `0`. -/
noncomputable def speedUpRun (target : ℝ) (deltas : List ℝ) : ℝ :=
  deltas.foldl (fun su delta => speedUpStep target su delta) 0

/-! ### Turbulent distortion: GLSL expression vs host-side `getJS` -/

/-- A 3-component vector (`THREE.Vector3` / GLSL `vec3`). -/
structure Vec3 where
  x : ℝ
  y : ℝ
  z : ℝ

/-- Componentwise `Vector3.multiply`. -/
def vecMultiply (a b : Vec3) : Vec3 := ⟨a.x * b.x, a.y * b.y, a.z * b.z⟩

/-- Componentwise `Vector3.add`. -/
def vecAdd (a b : Vec3) : Vec3 := ⟨a.x + b.x, a.y + b.y, a.z + b.z⟩

/-- A 4-component vector (`THREE.Vector4`); GLSL accesses it as
`r g b a`, JS as `x y z w`, in the same component order. -/
structure Vec4 where
  x : ℝ
  y : ℝ
  z : ℝ
  w : ℝ

/-- `uFreq` of `turbulentUniforms`: `new THREE.Vector4(4, 8, 8, 1)`. -/
def turbulentUFreq : Vec4 := ⟨4, 8, 8, 1⟩

/-- `uAmp` of `turbulentUniforms`: `new THREE.Vector4(25, 5, 10, 10)`. -/
def turbulentUAmp : Vec4 := ⟨25, 5, 10, 10⟩

/-- `nsin(val) = sin(val) * 0.5 + 0.5`, defined identically in the GLSL
string and in the JS helpers. -/
noncomputable def nsin (val : ℝ) : ℝ := Real.sin val * 0.5 + 0.5

/-- GLSL `getDistortionX` of `turbulentDistortion.getDistortion`; `piC`
stands for the shader's `#define PI 3.14159265358979` (a float literal;
the host side uses `Math.PI` — in this real-number embedding both are a
parameter, instantiated below). -/
noncomputable def getDistortionX (piC t progress : ℝ) : ℝ :=
  Real.cos (piC * progress * turbulentUFreq.x + t) * turbulentUAmp.x +
    (Real.cos (piC * progress * turbulentUFreq.y +
        t * (turbulentUFreq.y / turbulentUFreq.x))) ^ 2 * turbulentUAmp.y

/-- GLSL `getDistortionY` of `turbulentDistortion.getDistortion`. -/
noncomputable def getDistortionY (piC t progress : ℝ) : ℝ :=
  -nsin (piC * progress * turbulentUFreq.z + t) * turbulentUAmp.z +
    -(nsin (piC * progress * turbulentUFreq.w +
        t / (turbulentUFreq.z / turbulentUFreq.w))) ^ 5 * turbulentUAmp.w

/-- GLSL `getDistortion(progress)`: each axis offset is referenced to the
oscillator value at the fixed progress `0.0125`; the `z` component is
`0.`. -/
noncomputable def glslGetDistortion (piC t progress : ℝ) : Vec3 :=
  ⟨getDistortionX piC t progress - getDistortionX piC t 0.0125,
   getDistortionY piC t progress - getDistortionY piC t 0.0125, 0⟩

/-- Host-side `getX` inside `turbulentDistortion.getJS`. -/
noncomputable def turbulentGetX (piC time p : ℝ) : ℝ :=
  Real.cos (piC * p * turbulentUFreq.x + time) * turbulentUAmp.x +
    (Real.cos (piC * p * turbulentUFreq.y +
        time * (turbulentUFreq.y / turbulentUFreq.x))) ^ 2 * turbulentUAmp.y

/-- Host-side `getY` inside `turbulentDistortion.getJS`. -/
noncomputable def turbulentGetY (piC time p : ℝ) : ℝ :=
  -nsin (piC * p * turbulentUFreq.z + time) * turbulentUAmp.z -
    (nsin (piC * p * turbulentUFreq.w +
        time / (turbulentUFreq.z / turbulentUFreq.w))) ^ 5 * turbulentUAmp.w

/-- Host-side `turbulentDistortion.getJS(progress, time)`: the axis
offsets are referenced to the oscillator at `progress + 0.007`, then the
vector is multiplied componentwise by `lookAtAmp = (-2, -5, 0)` and
offset by `lookAtOffset = (0, 0, -10)`. -/
noncomputable def turbulentGetJS (piC progress time : ℝ) : Vec3 :=
  let distortion : Vec3 :=
    ⟨turbulentGetX piC time progress - turbulentGetX piC time (progress + 0.007),
     turbulentGetY piC time progress - turbulentGetY piC time (progress + 0.007), 0⟩
  let lookAtAmp : Vec3 := ⟨-2, -5, 0⟩
  let lookAtOffset : Vec3 := ⟨0, 0, -10⟩
  vecAdd (vecMultiply distortion lookAtAmp) lookAtOffset

/-- The shader's `#define PI 3.14159265358979` literal. -/
noncomputable def glslPI : ℝ := 3.14159265358979

/-- The GPU-side offset with the shader's own `PI` constant. -/
noncomputable def turbulentDistortionGLSL (progress time : ℝ) : Vec3 :=
  glslGetDistortion glslPI time progress

/-- The host-side offset with `Math.PI`. -/
noncomputable def turbulentDistortionHost (progress time : ℝ) : Vec3 :=
  turbulentGetJS Real.pi progress time

/-! ### Car-light instancing (`CarLights.init`) -/

/-- The Hyperspeed options consumed by `CarLights.init` (a slice of
`defaultHyperspeedOptions`; `carShiftX` and `carWidthPercentage` are not
attribute-configurable — `initialization` never parses them — so they
always hold their default ranges). -/
structure HyperOptions where
  roadWidth : ℚ
  lanesPerRoad : ℕ
  lightPairsPerRoadWay : ℕ
  carShiftX : ℚ × ℚ
  carWidthPercentage : ℚ × ℚ
  deriving DecidableEq, Repr

/-- The corresponding fields of `defaultHyperspeedOptions`. -/
def defaultHyperOptions : HyperOptions :=
  { roadWidth := 10
    lanesPerRoad := 4
    lightPairsPerRoadWay := 40
    carShiftX := (-0.8, 0.8)
    carWidthPercentage := (0.3, 0.5) }

/-- `random([lo, hi]) = Math.random() * (hi - lo) + lo`; `sample` models
the `Math.random()` draw, which lies in `[0, 1)`. -/
def jsRandomRange (range : ℚ × ℚ) (sample : ℚ) : ℚ :=
  sample * (range.2 - range.1) + range.1

/-- `instanced.instanceCount = options.lightPairsPerRoadWay * 2`. -/
def carLightsInstanceCount (o : HyperOptions) : ℕ :=
  o.lightPairsPerRoadWay * 2

/-- `laneWidth = options.roadWidth / options.lanesPerRoad`. -/
def laneWidth (o : HyperOptions) : ℚ :=
  o.roadWidth / (o.lanesPerRoad : ℚ)

/-- The lane x-position of car-light pair `i` in `CarLights.init`, after
the random shift: `carLane = i % lanesPerRoad`,
`laneX = carLane * laneWidth - roadWidth / 2 + laneWidth / 2`, then
`laneX += random(carShiftX) * laneWidth`. -/
def carLaneX (o : HyperOptions) (i : ℕ) (shiftSample : ℚ) : ℚ :=
  let lw := laneWidth o
  let carLane := i % o.lanesPerRoad
  (carLane : ℚ) * lw - o.roadWidth / 2 + lw / 2 +
    jsRandomRange o.carShiftX shiftSample * lw

/-! ### Lifecycle: `HyperspeedApp` state, `tick`, `dispose`, resize -/

/-- A call the app issues to the rendering backend, the DOM, or the frame
scheduler during one step. -/
inductive RenderCall where
  | rendererDispose
  | composerDispose
  | sceneClear
  | removeListener (ev : String)
  | removeChildCanvas
  | composerSetSize (w h : ℕ)
  | rendererSetSize (w h : ℕ)
  | cameraAspectSet
  | cameraProjectionUpdate
  | composerRender
  | requestFrame
  deriving DecidableEq, Repr

/-- Calls that reach the GPU-backed renderer/composer/scene (the
"call-count probe on the rendering backend" of the specification). -/
def isGpuCall : RenderCall → Bool
  | RenderCall.rendererDispose | RenderCall.composerDispose | RenderCall.sceneClear
  | RenderCall.composerSetSize _ _ | RenderCall.rendererSetSize _ _
  | RenderCall.composerRender => true
  | _ => false

/-- The GPU-backend subsequence of a call list. -/
def gpuCalls (cs : List RenderCall) : List RenderCall := cs.filter isGpuCall

/-- The canvas backing store (`canvas.width`/`canvas.height`; the device
pixel ratio is modelled as 1, so `setSize(w, h)` makes the backing store
exactly `w × h`). -/
structure Canvas where
  width : ℕ
  height : ℕ
  deriving DecidableEq, Repr

/-- The mutable state of one `HyperspeedApp` instance.  `initialized`
(true when the constructor found THREE/POSTPROCESSING and built the
renderer, composer and scene) stands for the truthiness of
`this.renderer`/`this.composer`/`this.scene` in `dispose`'s guards. -/
structure AppState where
  disposed : Bool
  initialized : Bool
  canvasAttached : Bool
  canvas : Canvas
  cameraAspect : JSNum
  cameraFov : ℝ
  fovTarget : ℝ
  speedUp : ℝ
  speedUpTarget : ℝ
  timeOffset : ℝ
  clockElapsed : ℝ
  sceneTime : ℝ
  lookAtTarget : Vec3

/-- The camera position set in the constructor: `x = 0, y = 8, z = -5`. -/
def hyperCameraPos : Vec3 := ⟨0, 8, -5⟩

/-- `HyperspeedApp.update(delta)`: speed-up easing, time-offset
accumulation, uniform time push (`sceneTime`), field-of-view easing, and
the camera look-at perturbation from the host-side distortion at the
fixed progress sample `0.025`. -/
noncomputable def appUpdate (s : AppState) (delta : ℝ) : AppState :=
  let lp := lerpPercentage delta
  let speedUp' := s.speedUp + lerp s.speedUp s.speedUpTarget lp 0.00001
  let timeOffset' := s.timeOffset + speedUp' * delta
  let time := s.clockElapsed + timeOffset'
  let fovChange := lerp s.cameraFov s.fovTarget lp 0.001
  let fov' := if fovChange = 0 then s.cameraFov else s.cameraFov + fovChange * delta * 6
  let d := turbulentGetJS Real.pi 0.025 time
  { s with
    speedUp := speedUp'
    timeOffset := timeOffset'
    sceneTime := time
    cameraFov := fov'
    lookAtTarget :=
      ⟨hyperCameraPos.x + d.x, hyperCameraPos.y + d.y, hyperCameraPos.z + d.z⟩ }

/-- External inputs to one animation frame: the canvas client (layout)
size and the clock delta. -/
structure FrameInput where
  clientW : ℕ
  clientH : ℕ
  delta : ℝ

/-- `HyperspeedApp.tick`: when `disposed` the callback returns at once —
no state change and no call.  Otherwise `resizeRendererToDisplaySize`
compares the backing store with the client size and, only when they
differ, calls `setSize` (→ `composer.setSize`) and re-derives the camera
aspect; then `clock.getDelta()` advances the clock, `render` runs the
composer, `update` runs (its look-at branch always updates the projection
matrix), and the next frame is scheduled. -/
noncomputable def tick (inp : FrameInput) (s : AppState) : AppState × List RenderCall :=
  if s.disposed then (s, [])
  else
    let resizeStep : AppState × List RenderCall :=
      if s.canvas.width ≠ inp.clientW ∨ s.canvas.height ≠ inp.clientH then
        ({ s with
            canvas := ⟨inp.clientW, inp.clientH⟩
            cameraAspect := jsDiv (JSNum.num (inp.clientW : ℚ)) (JSNum.num (inp.clientH : ℚ)) },
         [RenderCall.composerSetSize inp.clientW inp.clientH, RenderCall.cameraAspectSet,
          RenderCall.cameraProjectionUpdate])
      else (s, [])
    let s1 := resizeStep.1
    let s2 := { s1 with clockElapsed := s1.clockElapsed + inp.delta }
    (appUpdate s2 inp.delta,
     resizeStep.2 ++
       [RenderCall.composerRender, RenderCall.cameraProjectionUpdate, RenderCall.requestFrame])

/-- The listener removals `dispose` always performs. -/
def disposeListenerRemovals : List RenderCall :=
  [RenderCall.removeListener "resize", RenderCall.removeListener "mousedown",
   RenderCall.removeListener "mouseup", RenderCall.removeListener "mouseout",
   RenderCall.removeListener "touchstart", RenderCall.removeListener "touchend",
   RenderCall.removeListener "touchcancel", RenderCall.removeListener "contextmenu"]

/-- `container.removeChild(renderer.domElement)`: throws when the canvas
is not currently a child. -/
def removeChildAttempt (attached : Bool) : Except Unit Unit :=
  if attached then Except.ok () else Except.error ()

/-- `HyperspeedApp.dispose`: sets the flag, unconditionally re-runs the
guarded `renderer.dispose()` / `composer.dispose()` / `scene.clear()`
(the fields are never cleared, so the guards stay truthy), removes the
eight listeners, and attempts `removeChild` inside `try { } catch {}` —
the exception on an already-detached canvas is swallowed, so `dispose`
never propagates an error (it is a total function here). -/
def dispose (s : AppState) : AppState × List RenderCall :=
  let s1 := { s with disposed := true }
  let gpu :=
    if s.initialized then
      [RenderCall.rendererDispose, RenderCall.composerDispose, RenderCall.sceneClear]
    else []
  let domStep : AppState × List RenderCall :=
    if s.initialized then
      match removeChildAttempt s1.canvasAttached with
      | Except.ok _ => ({ s1 with canvasAttached := false }, [RenderCall.removeChildCanvas])
      | Except.error _ => (s1, [])
    else (s1, [])
  (domStep.1, gpu ++ disposeListenerRemovals ++ domStep.2)

/-- `HyperspeedApp.onWindowResize`: reads the container's offset size and
unconditionally resizes renderer and composer and re-derives the camera
aspect (`width / height` in JS arithmetic — `0 / 0` is `NaN`). -/
def onWindowResize (offsetW offsetH : ℕ) (s : AppState) : AppState × List RenderCall :=
  ({ s with
      canvas := ⟨offsetW, offsetH⟩
      cameraAspect := jsDiv (JSNum.num (offsetW : ℚ)) (JSNum.num (offsetH : ℚ)) },
   [RenderCall.rendererSetSize offsetW offsetH, RenderCall.cameraProjectionUpdate,
    RenderCall.composerSetSize offsetW offsetH])

/-- `IridescenceEffect.resize`: `const w = container.clientWidth || 1`
(and likewise for the height) clamps zero dimensions to 1 before
`renderer.setSize`, and the `uResolution` uniform becomes
`(width, height, width / height)`.  Returns the backing size and the
aspect component. -/
def iridescenceResize (clientW clientH : ℕ) : ℕ × ℕ × JSNum :=
  let w := if clientW = 0 then 1 else clientW
  let h := if clientH = 0 then 1 else clientH
  (w, h, jsDiv (JSNum.num (w : ℚ)) (JSNum.num (h : ℚ)))

/-- The per-frame results of `tick` repeated over a list of frame inputs:
the state after, and the calls of, each frame. -/
noncomputable def tickTrace : AppState → List FrameInput → List (AppState × List RenderCall)
  | _, [] => []
  | s, inp :: rest =>
    let r := tick inp s
    r :: tickTrace r.1 rest

/-- Backing-store resize call test. -/
def isSetSizeCall : RenderCall → Bool
  | RenderCall.composerSetSize _ _ => true
  | _ => false

/-- Camera-aspect assignment test. -/
def isAspectSetCall : RenderCall → Bool
  | RenderCall.cameraAspectSet => true
  | _ => false

/-- Which positions of a size sequence differ from their predecessor
(the first is compared with `prev`): the frames at which an actual size
change happens. -/
def changeFlags (prev : ℕ × ℕ) : List (ℕ × ℕ) → List Bool
  | [] => []
  | sz :: rest => (decide (sz ≠ prev)) :: changeFlags sz rest

/-- The client size of one frame input. -/
def frameSize (inp : FrameInput) : ℕ × ℕ := (inp.clientW, inp.clientH)

/-- A freshly constructed instance (THREE present, canvas attached,
800 × 600 container, constructor scalar values). -/
noncomputable def sampleState : AppState :=
  { disposed := false
    initialized := true
    canvasAttached := true
    canvas := ⟨800, 600⟩
    cameraAspect := jsDiv (JSNum.num ((800 : ℕ) : ℚ)) (JSNum.num ((600 : ℕ) : ℚ))
    cameraFov := 90
    fovTarget := 90
    speedUp := 0
    speedUpTarget := 0
    timeOffset := 0
    clockElapsed := 0
    sceneTime := 0
    lookAtTarget := ⟨0, 8, -5⟩ }

/-- `sampleState` after its `disposed` flag has been set. -/
noncomputable def sampleDisposedState : AppState :=
  { sampleState with disposed := true }

/-- Three frames during which the host container is resized from
800 × 600 to 400 × 300 and then keeps its size. -/
noncomputable def demoFrames : List FrameInput :=
  [⟨800, 600, 1/60⟩, ⟨400, 300, 1/60⟩, ⟨400, 300, 1/60⟩]

/-! ## Theorems -/

/-- C4 (amended): `parseData` is total (the `catch` swallows every parse
failure), an absent attribute yields the default, a numeric-heuristic key
yields `parseFloat` of the declared value — the declared float when the
value is numeric, but `NaN` (neither the default nor the raw string) when
it is unparsable — and a failing structured parse yields the raw string
when non-empty, else the default. -/
theorem parseData_resolver_spec (e : Element) (key : String) (dflt : JSVal) :
    (getAttribute e key = none → parseData e key dflt = dflt) ∧
    (∀ v, getAttribute e key = some v → isNumericKey key = true →
      parseData e key dflt = parseFloat v) ∧
    (∀ v, getAttribute e key = some v → parseDataTry key v = Except.error () →
      parseData e key dflt = if v = "" then dflt else JSVal.str v) ∧
    (∀ v, getAttribute e key = some v →
      (∃ w, parseDataTry key v = Except.ok w ∧ parseData e key dflt = w) ∨
        parseData e key dflt = (if v = "" then dflt else JSVal.str v)) := by
  refine ⟨fun h => by simp [parseData, h], fun v hv hk => ?_, fun v hv he => ?_,
    fun v hv => ?_⟩
  · simp [parseData, hv, parseDataTry, hk]
  · simp [parseData, hv, he]
  · cases he : parseDataTry key v with
    | ok w => exact Or.inl ⟨w, rfl, by simp [parseData, hv, he]⟩
    | error u => exact Or.inr (by simp [parseData, hv, he])

/-- Witness for C4: a declared numeric value on a numeric-heuristic key
resolves through `parseFloat`. -/
theorem parseData_resolver_spec_witness :
    parseData ⟨[("data-speed", "1.5")]⟩ "data-speed" (JSVal.num (7/10)) = parseFloat "1.5" :=
  (parseData_resolver_spec ⟨[("data-speed", "1.5")]⟩ "data-speed" (JSVal.num (7/10))).2.1
    "1.5" rfl rfl

/-- Counterexample to C4 as stated: the unparsable declared value `"abc"`
under the numeric-heuristic key `data-speed` resolves to `NaN`, which is
neither the supplied default nor the raw string. -/
theorem parseData_numeric_nan_counterexample :
    parseData ⟨[("data-speed", "abc")]⟩ "data-speed" (JSVal.num (7/10)) = JSVal.nan ∧
    JSVal.nan ≠ JSVal.num (7/10) ∧ JSVal.nan ≠ JSVal.str "abc" :=
  ⟨rfl, fun h => JSVal.noConfusion h, fun h => JSVal.noConfusion h⟩

/-- C10: for a key matched by none of the numeric/color/boolean name
heuristics, a declared empty-string value falls into the `JSON.parse`
branch, fails, and `value || defaultValue` yields the default, because
the empty string is falsy. -/
theorem parseData_empty_unmatched_default (e : Element) (key : String) (dflt : JSVal)
    (hn : isNumericKey key = false) (hc : isColorKey key = false)
    (hm : isMouseKey key = false) (hv : getAttribute e key = some "") :
    parseData e key dflt = dflt := by
  have htry : parseDataTry key "" = Except.error () := by
    simp [parseDataTry, hn, hc, hm]
    rfl
  simp [parseData, hv, htry]

/-- Witness for C10 at the key `data-distortion` (matched by no
heuristic) declared as the empty string. -/
theorem parseData_empty_unmatched_default_witness :
    parseData ⟨[("data-distortion", "")]⟩ "data-distortion"
      (JSVal.str "turbulentDistortion") = JSVal.str "turbulentDistortion" :=
  parseData_empty_unmatched_default ⟨[("data-distortion", "")]⟩ "data-distortion"
    (JSVal.str "turbulentDistortion") rfl rfl rfl rfl

/-- C8: the inputs `"#ffffff"`, `"0xffffff"` and the component triplet
`(1, 1, 1)` all resolve to the same internal color. -/
theorem color_input_forms_agree :
    hexToColor (HexInput.str "#ffffff") = hexToColor (HexInput.str "0xffffff") ∧
    hexToColor (HexInput.str "#ffffff") = colorOfTriple 1 1 1 := by
  have hpound : hexToColor (HexInput.str "#ffffff") = colorOfHexNum 16777215 := by
    have c1 : strStartsWith "#ffffff" "0x" = false := by decide
    have c2 : strStartsWith "#ffffff" "#" = true := by decide
    have c3 : parseIntHex (strDropChars "#ffffff" 1) = 16777215 := by decide
    simp [hexToColor, c1, c2, c3]
  have hox : hexToColor (HexInput.str "0xffffff") = colorOfHexNum 16777215 := by
    have c1 : strStartsWith "0xffffff" "0x" = true := by decide
    have c3 : parseIntHex (strDropChars "0xffffff" 2) = 16777215 := by decide
    simp [hexToColor, c1, c3]
  refine ⟨hpound.trans hox.symm, hpound.trans ?_⟩
  norm_num [colorOfHexNum, colorOfTriple]

/-- C1 (amended): a second `dispose` propagates no error (`dispose` is a
total function: the one throwing step is caught) and leaves the state
exactly as the first left it — but it is not a no-op on the rendering
backend: it re-issues `renderer.dispose`, `composer.dispose` and
`scene.clear`. -/
theorem dispose_second_call_spec (s : AppState) :
    (dispose (dispose s).1).1 = (dispose s).1 ∧
    (s.initialized = true →
      gpuCalls (dispose (dispose s).1).2 =
        [RenderCall.rendererDispose, RenderCall.composerDispose, RenderCall.sceneClear]) := by
  cases hi : s.initialized <;> cases ha : s.canvasAttached <;>
    simp [dispose, removeChildAttempt, hi, ha, gpuCalls, disposeListenerRemovals, isGpuCall]

/-- Witness for C1 on a freshly constructed instance. -/
theorem dispose_second_call_spec_witness :
    (dispose (dispose sampleState).1).1 = (dispose sampleState).1 ∧
    gpuCalls (dispose (dispose sampleState).1).2 =
      [RenderCall.rendererDispose, RenderCall.composerDispose, RenderCall.sceneClear] :=
  ⟨(dispose_second_call_spec sampleState).1, (dispose_second_call_spec sampleState).2 rfl⟩

/-- Counterexample to C1 as stated: after a first `dispose`, a second
`dispose` issues three further GPU calls, so it is not a GPU-silent
no-op. -/
theorem dispose_second_call_counterexample :
    gpuCalls (dispose (dispose sampleState).1).2 =
      [RenderCall.rendererDispose, RenderCall.composerDispose, RenderCall.sceneClear] ∧
    gpuCalls (dispose (dispose sampleState).1).2 ≠ [] := by
  constructor
  · rfl
  · intro h
    rw [show gpuCalls (dispose (dispose sampleState).1).2 =
      [RenderCall.rendererDispose, RenderCall.composerDispose, RenderCall.sceneClear] from rfl] at h
    exact List.noConfusion h

/-- C2: once `disposed` is set, a fired `tick` returns at its first line:
the state is untouched and no call — no render, no GPU call, no scheduled
frame — is issued (and, being total, it throws nothing). -/
theorem tick_after_dispose_noop (inp : FrameInput) (s : AppState)
    (hd : s.disposed = true) : tick inp s = (s, []) := by
  simp [tick, hd]

/-- Witness for C2: a pending frame firing on a disposed instance. -/
theorem tick_after_dispose_noop_witness :
    tick ⟨800, 600, 1/60⟩ sampleDisposedState = (sampleDisposedState, []) :=
  tick_after_dispose_noop ⟨800, 600, 1/60⟩ sampleDisposedState rfl

/-- C9 (hyperspeed side fails): at a zero-size container,
`HyperspeedApp.onWindowResize` is not a no-op — it resizes the backend to
`0 × 0` and sets `camera.aspect` to `0 / 0 = NaN` — while
`IridescenceEffect.resize` clamps the size to `1 × 1` and keeps a valid
resolution uniform. -/
theorem hyperspeed_zero_size_resize_not_noop :
    (onWindowResize 0 0 sampleState).1.cameraAspect = JSNum.nan ∧
    (onWindowResize 0 0 sampleState).2 ≠ [] ∧
    iridescenceResize 0 0 = (1, 1, JSNum.num 1) := by
  refine ⟨rfl, ?_, by norm_num [iridescenceResize, jsDiv]⟩
  intro h
  exact List.noConfusion h

/-- Counterexample to C6 as stated: at `progress = 0`, `time = 0` the
GPU-side expression and the host-side evaluator disagree (their `z`
components are `0` and `-10`). -/
theorem turbulent_distortion_offsets_differ :
    turbulentDistortionHost 0 0 ≠ turbulentDistortionGLSL 0 0 := by
  intro h
  have hz := congrArg Vec3.z h
  simp [turbulentDistortionHost, turbulentDistortionGLSL, turbulentGetJS, glslGetDistortion,
    vecAdd, vecMultiply] at hz

/-- C6 (amended): the per-axis oscillators of the GPU expression and the
host evaluator are algebraically identical (same frequency and amplitude
constants, given the same `π` constant), but the assembled offsets are
not: the GPU expression subtracts the oscillator at the fixed reference
progress `0.0125`, while the host evaluator subtracts it at
`progress + 0.007` and then scales by `lookAtAmp = (-2, -5, 0)` and adds
`lookAtOffset = (0, 0, -10)` (so, in particular, the `z` components are
always `-10` versus `0`). -/
theorem turbulent_formulas_relation (piC p t : ℝ) :
    getDistortionX piC t p = turbulentGetX piC t p ∧
    getDistortionY piC t p = turbulentGetY piC t p ∧
    (turbulentGetJS piC p t).x =
      (turbulentGetX piC t p - turbulentGetX piC t (p + 0.007)) * (-2) ∧
    (glslGetDistortion piC t p).x =
      getDistortionX piC t p - getDistortionX piC t 0.0125 ∧
    (turbulentGetJS piC p t).z = -10 ∧
    (glslGetDistortion piC t p).z = 0 := by
  refine ⟨rfl, ?_, ?_, rfl, ?_, rfl⟩
  · unfold getDistortionY turbulentGetY; ring
  · simp [turbulentGetJS, vecAdd, vecMultiply]
  · simp [turbulentGetJS, vecAdd, vecMultiply]

/-- Counterexample to C7 as stated: with the default options
(`lanesPerRoad = 4`, `roadWidth = 10`), pair `i = 3` with a shift draw of
`0.99` gets the lane x-position `5.71`, outside
`[-roadWidth / 2, roadWidth / 2] = [-5, 5]`. -/
theorem carlights_lane_bound_counterexample :
    (0:ℚ) ≤ 99/100 ∧ (99/100 : ℚ) < 1 ∧ 3 < defaultHyperOptions.lightPairsPerRoadWay ∧
    defaultHyperOptions.roadWidth / 2 < carLaneX defaultHyperOptions 3 (99/100) := by
  refine ⟨by norm_num, by norm_num, by norm_num [defaultHyperOptions], ?_⟩
  norm_num [carLaneX, laneWidth, jsRandomRange, defaultHyperOptions]

/-- C7 (amended): with `lanesPerRoad = 4` the car-light instance count is
`2 × lightPairsPerRoadWay`, and every generated lane x-position lies
within `[-roadWidth/2 - 0.3·laneWidth, roadWidth/2 + 0.3·laneWidth)` —
the default random shift of `±0.8·laneWidth` around lane centers can
place positions up to `0.3·laneWidth` outside `[-roadWidth/2,
roadWidth/2]`, and no further. -/
theorem carlights_count_and_lane_bound (o : HyperOptions) (h4 : o.lanesPerRoad = 4)
    (hrw : 0 < o.roadWidth) (hshift : o.carShiftX = (-0.8, 0.8))
    (i : ℕ) (u : ℚ) (hu0 : 0 ≤ u) (hu1 : u < 1) :
    carLightsInstanceCount o = 2 * o.lightPairsPerRoadWay ∧
    -(o.roadWidth / 2) - (3/10) * laneWidth o ≤ carLaneX o i u ∧
    carLaneX o i u < o.roadWidth / 2 + (3/10) * laneWidth o := by
  have hlane : i % o.lanesPerRoad < 4 := by
    rw [h4]; exact Nat.mod_lt i (by norm_num)
  have hcle : ((i % o.lanesPerRoad : ℕ) : ℚ) ≤ 3 := by
    exact_mod_cast Nat.lt_succ_iff.mp hlane
  have hc0 : (0:ℚ) ≤ ((i % o.lanesPerRoad : ℕ) : ℚ) := Nat.cast_nonneg _
  have hlw : laneWidth o = o.roadWidth / 4 := by
    rw [laneWidth, h4]; norm_num
  refine ⟨Nat.mul_comm _ _, ?_, ?_⟩ <;>
    · rw [carLaneX, jsRandomRange, hshift, hlw]
      nlinarith [mul_nonneg hc0 hrw.le, mul_nonneg hu0 hrw.le,
        mul_le_mul_of_nonneg_right hcle (by positivity : (0:ℚ) ≤ o.roadWidth / 4),
        mul_lt_mul_of_pos_right hu1 hrw]

/-- Witness for C7 on the default options, pair `0`, shift draw `0`. -/
theorem carlights_count_and_lane_bound_witness :
    carLightsInstanceCount defaultHyperOptions = 2 * defaultHyperOptions.lightPairsPerRoadWay ∧
    -(defaultHyperOptions.roadWidth / 2) - (3/10) * laneWidth defaultHyperOptions ≤
      carLaneX defaultHyperOptions 0 0 ∧
    carLaneX defaultHyperOptions 0 0 <
      defaultHyperOptions.roadWidth / 2 + (3/10) * laneWidth defaultHyperOptions :=
  carlights_count_and_lane_bound defaultHyperOptions rfl (by norm_num [defaultHyperOptions])
    rfl 0 0 le_rfl (by norm_num)

/-- `update` never touches the `disposed` flag. -/
theorem appUpdate_disposed (s : AppState) (d : ℝ) : (appUpdate s d).disposed = s.disposed := rfl

/-- `update` never touches the canvas backing store. -/
theorem appUpdate_canvas (s : AppState) (d : ℝ) : (appUpdate s d).canvas = s.canvas := rfl

/-- `update` never touches the camera aspect (it changes the fov and the
look-at point, not the aspect). -/
theorem appUpdate_cameraAspect (s : AppState) (d : ℝ) :
    (appUpdate s d).cameraAspect = s.cameraAspect := rfl

/-- C5: over any frame sequence on a live instance whose camera aspect
matches its backing store, a frame issues the backing-store `setSize`
(and the camera-aspect assignment) exactly when its client size differs
from the previous frame's (the first frame compared with the initial
backing store) — so exactly once per actual size change and never on a
frame whose size did not change — and after every frame the backing
store equals that frame's client size and the camera aspect equals its
width/height ratio. -/
theorem tick_resizes_once_per_change :
    ∀ (inps : List FrameInput) (s : AppState), s.disposed = false →
      s.cameraAspect = jsDiv (JSNum.num (s.canvas.width : ℚ)) (JSNum.num (s.canvas.height : ℚ)) →
      ((tickTrace s inps).map fun r => r.2.any isSetSizeCall) =
          changeFlags (s.canvas.width, s.canvas.height) (inps.map frameSize) ∧
      ((tickTrace s inps).map fun r => r.2.any isAspectSetCall) =
          changeFlags (s.canvas.width, s.canvas.height) (inps.map frameSize) ∧
      ((tickTrace s inps).map fun r => (r.1.canvas.width, r.1.canvas.height)) =
          inps.map frameSize ∧
      ((tickTrace s inps).map fun r => r.1.cameraAspect) =
          inps.map (fun inp => jsDiv (JSNum.num (inp.clientW : ℚ)) (JSNum.num (inp.clientH : ℚ))) := by
  intro inps
  induction inps with
  | nil => intro s hd ha; simp [tickTrace, changeFlags]
  | cons inp rest ih =>
    intro s hd ha
    by_cases hc : s.canvas.width = inp.clientW ∧ s.canvas.height = inp.clientH
    · obtain ⟨hc1, hc2⟩ := hc
      have hcond : ¬(s.canvas.width ≠ inp.clientW ∨ s.canvas.height ≠ inp.clientH) := by
        simp [hc1, hc2]
      have ht : tick inp s =
          (appUpdate { s with clockElapsed := s.clockElapsed + inp.delta } inp.delta,
           [RenderCall.composerRender, RenderCall.cameraProjectionUpdate,
            RenderCall.requestFrame]) := by
        simp [tick, hd, hcond]
      have ihr := ih (tick inp s).1
        (by rw [ht, appUpdate_disposed]; exact hd)
        (by rw [ht, appUpdate_cameraAspect, appUpdate_canvas]; exact ha)
      rw [ht] at ihr
      have hprev : (inp.clientW, inp.clientH) = (s.canvas.width, s.canvas.height) := by
        rw [hc1, hc2]
      have hflag : decide ((inp.clientW, inp.clientH) ≠ (s.canvas.width, s.canvas.height)) =
          false := by simp [hprev]
      simp only [tickTrace, ht, List.map_cons, changeFlags, frameSize, appUpdate_canvas,
        appUpdate_cameraAspect] at ihr ⊢
      rw [← hprev] at ihr
      rw [hflag]
      have haspect : s.cameraAspect =
          jsDiv (JSNum.num (inp.clientW : ℚ)) (JSNum.num (inp.clientH : ℚ)) := by
        rw [ha, hc1, hc2]
      exact ⟨congrArg₂ List.cons rfl ihr.1, congrArg₂ List.cons rfl ihr.2.1,
        congrArg₂ List.cons hprev.symm ihr.2.2.1, congrArg₂ List.cons haspect ihr.2.2.2⟩
    · have hcond : s.canvas.width ≠ inp.clientW ∨ s.canvas.height ≠ inp.clientH := by
        rcases Decidable.em (s.canvas.width = inp.clientW) with h1 | h1
        · exact Or.inr fun h2 => hc ⟨h1, h2⟩
        · exact Or.inl h1
      have ht : tick inp s =
          (appUpdate
            { s with
                canvas := ⟨inp.clientW, inp.clientH⟩
                cameraAspect := jsDiv (JSNum.num (inp.clientW : ℚ)) (JSNum.num (inp.clientH : ℚ))
                clockElapsed := s.clockElapsed + inp.delta }
            inp.delta,
           [RenderCall.composerSetSize inp.clientW inp.clientH, RenderCall.cameraAspectSet,
            RenderCall.cameraProjectionUpdate, RenderCall.composerRender,
            RenderCall.cameraProjectionUpdate, RenderCall.requestFrame]) := by
        simp [tick, hd, hcond]
      have ihr := ih (tick inp s).1
        (by rw [ht, appUpdate_disposed]; exact hd)
        (by rw [ht]; rfl)
      rw [ht] at ihr
      have hflag : decide ((inp.clientW, inp.clientH) ≠ (s.canvas.width, s.canvas.height)) =
          true := by
        simp only [decide_eq_true_eq, Ne, Prod.mk.injEq, not_and]
        intro h1 h2
        rcases hcond with h | h
        · exact h h1.symm
        · exact h h2.symm
      simp only [tickTrace, ht, List.map_cons, changeFlags, frameSize, appUpdate_canvas,
        appUpdate_cameraAspect] at ihr ⊢
      rw [hflag]
      exact ⟨congrArg₂ List.cons rfl ihr.1, congrArg₂ List.cons rfl ihr.2.1,
        congrArg₂ List.cons rfl ihr.2.2.1, congrArg₂ List.cons rfl ihr.2.2.2⟩

/-- Witness for C5: a live instance with an 800 × 600 backing store run
over frames whose client size changes to 400 × 300 once. -/
theorem tick_resizes_once_per_change_witness :
    ((tickTrace sampleState demoFrames).map fun r => r.2.any isSetSizeCall) =
        changeFlags (sampleState.canvas.width, sampleState.canvas.height)
          (demoFrames.map frameSize) ∧
    ((tickTrace sampleState demoFrames).map fun r => r.2.any isAspectSetCall) =
        changeFlags (sampleState.canvas.width, sampleState.canvas.height)
          (demoFrames.map frameSize) ∧
    ((tickTrace sampleState demoFrames).map fun r => (r.1.canvas.width, r.1.canvas.height)) =
        demoFrames.map frameSize ∧
    ((tickTrace sampleState demoFrames).map fun r => r.1.cameraAspect) =
        demoFrames.map
          (fun inp => jsDiv (JSNum.num (inp.clientW : ℚ)) (JSNum.num (inp.clientH : ℚ))) :=
  tick_resizes_once_per_change demoFrames sampleState rfl rfl

/-- The easing constant `-(-60 * Math.log2(1 - 0.1))` is negative. -/
theorem lerpDecay_neg : lerpDecay < 0 := by
  have h : Real.logb 2 (1 - 0.1) < 0 :=
    Real.logb_neg (by norm_num) (by norm_num) (by norm_num)
  rw [lerpDecay]
  nlinarith

/-- The per-frame easing percentage is positive. -/
theorem lerpPercentage_pos (delta : ℝ) : 0 < lerpPercentage delta := Real.exp_pos _

/-- For a positive frame delta the easing percentage is below 1. -/
theorem lerpPercentage_lt_one (delta : ℝ) (hpos : 0 < delta) : lerpPercentage delta < 1 := by
  rw [lerpPercentage, Real.exp_lt_one_iff]
  exact mul_neg_of_neg_of_pos lerpDecay_neg hpos

/-- One easing step never decreases `speedUp` and never overshoots the
target. -/
theorem speedUpStep_bounds (target su delta : ℝ) (h1 : su ≤ target) (hpos : 0 < delta) :
    su ≤ speedUpStep target su delta ∧ speedUpStep target su delta ≤ target := by
  have hs0 : 0 < lerpPercentage delta := lerpPercentage_pos delta
  have hs1 : lerpPercentage delta < 1 := lerpPercentage_lt_one delta hpos
  rw [speedUpStep, lerp]
  by_cases hcl : |(target - su) * lerpPercentage delta| < 0.00001
  · simp only [hcl, if_true]
    constructor <;> linarith
  · simp only [hcl, if_false]
    constructor
    · nlinarith
    · nlinarith

/-- One easing step either lands exactly on the target (the `limit`
clamp of `lerp`) or shrinks the remaining gap by at least the limit
`0.00001`. -/
theorem speedUpStep_progress (target su delta : ℝ) (h1 : su ≤ target) (_hpos : 0 < delta) :
    speedUpStep target su delta = target ∨
      target - speedUpStep target su delta ≤ (target - su) - 0.00001 := by
  rw [speedUpStep, lerp]
  by_cases hcl : |(target - su) * lerpPercentage delta| < 0.00001
  · left
    simp only [hcl, if_true]
    ring
  · right
    simp only [hcl, if_false]
    have hge : (0.00001 : ℝ) ≤ |(target - su) * lerpPercentage delta| := not_lt.1 hcl
    have hnn : 0 ≤ (target - su) * lerpPercentage delta :=
      mul_nonneg (by linarith) (lerpPercentage_pos delta).le
    rw [abs_of_nonneg hnn] at hge
    linarith

/-- The target is a fixed point of the easing step. -/
theorem speedUpStep_fixed (target delta : ℝ) : speedUpStep target target delta = target := by
  rw [speedUpStep, lerp]
  have h0 : (target - target) * lerpPercentage delta = 0 := by ring
  rw [h0]
  norm_num

/-- Once at the target, any further frame sequence stays there. -/
theorem speedUpFold_fixed (target : ℝ) (ds : List ℝ) :
    ds.foldl (fun su delta => speedUpStep target su delta) target = target := by
  induction ds with
  | nil => rfl
  | cons d ds ih => simpa [List.foldl, speedUpStep_fixed] using ih

/-- `scanl` always starts with its seed. -/
theorem scanl_head_eq (f : ℝ → ℝ → ℝ) (b : ℝ) (l : List ℝ) :
    (l.scanl f b).head? = some b := by
  cases l <;> simp [List.scanl]

/-- The easing trajectory from any state below the target is a
non-decreasing chain bounded by the target. -/
theorem speedUpScan_mono_le (target : ℝ) :
    ∀ (ds : List ℝ), (∀ d ∈ ds, 0 < d) → ∀ su, su ≤ target →
      List.Chain' (· ≤ ·) (ds.scanl (fun a delta => speedUpStep target a delta) su) ∧
      ∀ x ∈ ds.scanl (fun a delta => speedUpStep target a delta) su, x ≤ target := by
  intro ds
  induction ds with
  | nil =>
    intro _ su h1
    constructor
    · simp [List.scanl]
    · intro x hx
      simp [List.scanl] at hx
      simpa [hx] using h1
  | cons d ds ih =>
    intro hpos su h1
    have hd : 0 < d := hpos d (by simp)
    have hb := speedUpStep_bounds target su d h1 hd
    have ihr := ih (fun e he => hpos e (by simp [he])) (speedUpStep target su d) hb.2
    rw [List.scanl_cons]
    constructor
    · rw [List.singleton_append, List.chain'_cons']
      refine ⟨?_, ihr.1⟩
      intro y hy
      rw [scanl_head_eq] at hy
      simp at hy
      simpa [hy] using hb.1
    · intro x hx
      rw [List.singleton_append] at hx
      rcases List.mem_cons.1 hx with h | h
      · simpa [h] using h1
      · exact ihr.2 x h

/-- Per-frame progress of at least `limit` forces the fold to land on
the target within `gap / limit` frames. -/
theorem speedUpFold_reaches (target : ℝ) :
    ∀ (ds : List ℝ), (∀ d ∈ ds, 0 < d) → ∀ su, su ≤ target →
      target - su ≤ (ds.length : ℝ) * 0.00001 →
      ds.foldl (fun a delta => speedUpStep target a delta) su = target := by
  intro ds
  induction ds with
  | nil =>
    intro _ su h1 hlen
    simp only [List.length_nil, Nat.cast_zero, zero_mul] at hlen
    simp only [List.foldl_nil]
    linarith
  | cons d ds ih =>
    intro hpos su h1 hlen
    have hd : 0 < d := hpos d (by simp)
    have hb := speedUpStep_bounds target su d h1 hd
    rw [List.foldl_cons]
    rcases speedUpStep_progress target su d h1 hd with heq | hlt
    · rw [heq]
      exact speedUpFold_fixed target ds
    · refine ih (fun e he => hpos e (by simp [he])) _ hb.2 ?_
      have hlen' : ((d :: ds).length : ℝ) = (ds.length : ℝ) + 1 := by
        push_cast [List.length_cons]
        ring
      rw [hlen'] at hlen
      linarith

/-- C3: starting from `speedUp = 0` with a positive press-boosted
`speedUpTarget`, over any frame sequence with positive deltas the
per-frame `speedUp` values are monotonically non-decreasing, never
exceed the target, and reach it exactly once the frame count passes the
explicit bound `target * 100000` (the gap shrinks by at least the
`0.00001` clamp limit per frame until the clamp lands it on the
target). -/
theorem speedup_easing_monotone_no_overshoot_converges (target : ℝ) (ht : 0 < target)
    (deltas : List ℝ) (hpos : ∀ d ∈ deltas, 0 < d) :
    List.Chain' (· ≤ ·) (speedUpTraj target deltas) ∧
    (∀ x ∈ speedUpTraj target deltas, x ≤ target) ∧
    (target * 100000 ≤ (deltas.length : ℝ) → speedUpRun target deltas = target) := by
  have h0 : (0 : ℝ) ≤ target := ht.le
  have hm := speedUpScan_mono_le target deltas hpos 0 h0
  refine ⟨hm.1, hm.2, fun hlen => ?_⟩
  refine speedUpFold_reaches target deltas hpos 0 h0 ?_
  nlinarith

/-- Witness for C3 with the default boosted target `speedUp = 2` and one
60 fps frame. -/
theorem speedup_easing_witness :
    List.Chain' (· ≤ ·) (speedUpTraj 2 [1/60]) ∧
    (∀ x ∈ speedUpTraj 2 [1/60], x ≤ 2) ∧
    ((2 : ℝ) * 100000 ≤ (([1/60] : List ℝ).length : ℝ) → speedUpRun 2 [1/60] = 2) :=
  speedup_easing_monotone_no_overshoot_converges 2 (by norm_num) [1/60] (by norm_num)

end BgFx
